import Mathlib

/-!
Verification development for the jamovi engine-manager core
(`server/jamovi/server/enginemanager.py`).

The Python module is shallowly embedded below.  Mutable objects become
records, mutation becomes functional update, and each operation returns the
updated state together with a list of observable side effects (messages sent
on the worker channel, slot-available notifications, engine events, the
channel being closed).  A call that would raise an uncaught Python exception
(for example attribute access on `None`, or resolving an already-resolved
future) is modelled by the operation returning `none`.  Logging calls
(`log.info`, `log.error`, `print`) have no observable effect on the state
and are not modelled.
-/

/-- `jcoms.Status` values carried on the message envelope
(`message.status`).  Only the values the engine manager inspects are
distinguished; `COMPLETE` stands for every non-error, non-in-progress
value. -/
inductive JStatus
  | COMPLETE
  | IN_PROGRESS
  | ERROR
deriving DecidableEq

/-- `Analysis.Status` values of the external work item.  `analyses.py` is
not part of the sources under verification; the constructors mirror the
values the engine manager uses (`COMPLETE`, `RUNNING`) plus the remaining
ones named by the protocol, so that `Analysis.Status(results.status)` is the
identity on this type. -/
inductive AStatus
  | NONE
  | INITED
  | RUNNING
  | COMPLETE
  | ERROR
deriving DecidableEq

/-- `jcoms.AnalysisRequest.Perform` values used by the engine manager. -/
inductive Perform
  | INIT
  | RUN
  | SAVE
deriving DecidableEq

/-- The parsed `jcoms.AnalysisResponse` payload of an incoming message:
the revision the worker computed against, the work item's new status, and
an opaque results body. -/
structure AnalysisResponse where
  revision : Nat
  status : AStatus
  results : Nat
deriving DecidableEq

/-- The `error` submessage of an incoming `ComsMessage`. -/
structure ErrorInfo where
  cause : String
deriving DecidableEq

/-- An incoming `jcoms.ComsMessage` as the engine manager reads it:
`message.id`, `message.status`, `message.error.cause`, and
`message.payload` parsed as an `AnalysisResponse` (the only payload type
`_receive` ever parses). -/
structure ComsMessage where
  id : Nat
  status : JStatus
  error : ErrorInfo
  payload : AnalysisResponse
deriving DecidableEq

/-- An outgoing `jcoms.AnalysisRequest`.  Field defaults are the protobuf
defaults; a request built by the code sets only the fields it assigns, all
others stay at their defaults. -/
structure AnalysisRequest where
  sessionId : Nat := 0
  instanceId : Nat := 0
  analysisId : Nat := 0
  name : String := ""
  ns : String := ""
  options : Nat := 0
  changed : List String := []
  revision : Nat := 0
  clearState : Bool := false
  perform : Perform := Perform.INIT
  path : String := ""
  part : String := ""
  restartEngines : Bool := false
deriving DecidableEq

/-- An outgoing `jcoms.ComsMessage` envelope: `message.id`,
`message.payload` (a serialized `AnalysisRequest`) and
`message.payloadType`. -/
structure SentMessage where
  id : Nat
  payload : AnalysisRequest
  payloadType : String
deriving DecidableEq

/-- The resolution of a pending operation's completion handle:
`op.set_exception(RuntimeError(cause))` or `op.set_result(message)`. -/
inductive OpResolution
  | rejected (cause : String)
  | resolved (payload : ComsMessage)
deriving DecidableEq

/-- The work item's pending operation.  Modelled from the spec:
`analyses.py` is not under the sources; the spec describes "an optional
pending operation (e.g. persist-to-path) with a `waiting` flag and a
completion handle (a promise-like object supporting setResult/setException,
resolved exactly once)".  `resolution` is the completion handle's state. -/
structure Op where
  path : String
  part : String
  waiting : Bool
  resolution : Option OpResolution := none
deriving DecidableEq

/-- `op.set_exception(RuntimeError(cause))`: single resolution; resolving an
already-resolved handle raises (`none`). -/
def Op.set_exception (o : Op) (cause : String) : Option Op :=
  match o.resolution with
  | some _ => none
  | none => some { o with resolution := some (OpResolution.rejected cause) }

/-- `op.set_result(message)`: single resolution; resolving an
already-resolved handle raises (`none`). -/
def Op.set_result (o : Op) (message : ComsMessage) : Option Op :=
  match o.resolution with
  | some _ => none
  | none => some { o with resolution := some (OpResolution.resolved message) }

/-- The external work item ("Analysis").  Modelled from the spec (§3 Data
Model), since `analyses.py` is not under the sources: identity fields (the
attribute chains `analysis.instance.session.id` and `analysis.instance.id`
are flattened to `sessionId` and `instanceId`), a mutable status, the
revision counter, the changed-field list, the clear-state flag, the
serialized option set (`analysis.options.as_pb()`, opaque), and the
optional pending operation.  `resultsLog` records each `set_results` call
in order, so that applied results are observable. -/
structure Analysis where
  id : Nat
  name : String
  ns : String
  instanceId : Nat
  sessionId : Nat
  status : AStatus
  revision : Nat
  changes : List String
  clear_state : Bool
  optionsPb : Nat
  op : Option Op := none
  resultsLog : List AnalysisResponse := []
deriving DecidableEq

/-- `analysis.needs_op`.  Modelled from the spec: the item "has a pending
completable operation" exactly when an operation is present and still
waiting to be dispatched. -/
def Analysis.needs_op (a : Analysis) : Bool :=
  match a.op with
  | some o => o.waiting
  | none => false

/-- `analysis.set_results(results)`: applies a (partial or final) results
payload to the item; modelled as recording it. -/
def Analysis.set_results (a : Analysis) (results : AnalysisResponse) : Analysis :=
  { a with resultsLog := a.resultsLog ++ [results] }

/-- `Engine.Status`. -/
inductive EStatus
  | WAITING
  | INITING
  | RUNNING
  | OPPING
deriving DecidableEq

/-- The child process handle: `poll()` updates `returncode`, which is the
exit code once the process has died (`none` while alive). -/
structure Process where
  pid : Nat
  returncode : Option Int
deriving DecidableEq

/-- The nanomsg PAIR socket: an opaque handle plus the address it was bound
to. -/
structure Socket where
  handle : Nat
  addr : String
deriving DecidableEq

/-- An `Engine`: one supervised worker.  `thread` records whether the
receiver thread was started. -/
structure Engine where
  conn_path : String
  data_path : String
  status : EStatus := EStatus.WAITING
  analysis : Option Analysis := none
  process : Option Process := none
  socket : Option Socket := none
  thread : Bool := false
  message_id : Nat := 0
  restarting : Bool := false
  stopping : Bool := false
  stopped : Bool := false
deriving DecidableEq

/-- `Engine.is_waiting`. -/
def Engine.is_waiting (e : Engine) : Bool :=
  decide (e.status = EStatus.WAITING)

/-- Observable side effects of the engine-manager operations. -/
inductive Effect
  | sent (m : SentMessage)
  | slotAvailable
  | engineEvent (type : String) (message : String) (cause : String)
  | socketClosed
deriving DecidableEq

/-- Behaviour of the external calls inside `Engine.start`'s try block:
either everything succeeds (`ok`, with the new process and socket handles),
or `subprocess.Popen` raises, or creating/configuring/binding the socket
raises (the process was already assigned), or creating/starting the
receiver thread raises (process and bound socket were already assigned).
In the socket-failure case whether a half-constructed socket object was
assigned before the failure is not distinguished: the channel is unusable
either way, so the `socket` field is left unchanged. -/
inductive StartOutcome
  | ok (proc : Nat) (sock : Nat)
  | popenFail (cause : String)
  | socketFail (proc : Nat) (cause : String)
  | threadFail (proc : Nat) (sock : Nat) (cause : String)
deriving DecidableEq

/-- `Engine.start` (lines 56–107): spawn the worker process with the
engine's connection and data paths, create a socket and bind it to
`conn_path`, and start the receiver thread.  Any exception inside the try
block is caught (`except BaseException`) and reported as a single
engine-event; nothing is retried and nothing propagates to the caller. -/
def Engine.start (e : Engine) (outcome : StartOutcome) : Engine × List Effect :=
  match outcome with
  | StartOutcome.ok p s =>
      ({ e with process := some ⟨p, none⟩,
                socket := some ⟨s, e.conn_path⟩,
                thread := true }, [])
  | StartOutcome.popenFail c =>
      (e, [Effect.engineEvent "error" "Engine process could not be started" c])
  | StartOutcome.socketFail p c =>
      ({ e with process := some ⟨p, none⟩ },
       [Effect.engineEvent "error" "Engine process could not be started" c])
  | StartOutcome.threadFail p s c =>
      ({ e with process := some ⟨p, none⟩,
                socket := some ⟨s, e.conn_path⟩ },
       [Effect.engineEvent "error" "Engine process could not be started" c])

/-- `Engine.stop` (lines 109–124): no-op when already stopped; otherwise
set `stopping`, increment the message counter and send a restart-signal
request (all fields default except `restartEngines`).  Sending on a missing
socket raises (`none`). -/
def Engine.stop (e : Engine) : Option (Engine × List Effect) :=
  if e.stopped then
    some (e, [])
  else
    match e.socket with
    | none => none
    | some _ =>
        let mid := e.message_id + 1
        some ({ e with stopping := true, message_id := mid },
              [Effect.sent ⟨mid, { restartEngines := true }, "AnalysisRequest"⟩])

/-- `Engine.restart` (lines 126–128): set `restarting` then delegate to
`stop`. -/
def Engine.restart (e : Engine) : Option (Engine × List Effect) :=
  Engine.stop { e with restarting := true }

/-- `Engine.send` (lines 173–218): increment the message counter, capture
the item as the current item, and either dispatch the pending operation
(SAVE; item complete and `needs_op`) or a run/init request (mutating the
item's status to running).  The updated external item is the one stored in
the returned engine's `analysis` field.  Sending on a missing socket raises
(`none`). -/
def Engine.send (e : Engine) (analysis : Analysis) (run : Bool) : Option (Engine × List Effect) :=
  match e.socket with
  | none => none
  | some _ =>
      let mid := e.message_id + 1
      if analysis.status = AStatus.COMPLETE ∧ analysis.needs_op then
        match analysis.op with
        | none => none
        | some o =>
            let analysis := { analysis with op := some { o with waiting := false } }
            let request : AnalysisRequest :=
              { sessionId := analysis.sessionId
                instanceId := analysis.instanceId
                analysisId := analysis.id
                name := analysis.name
                ns := analysis.ns
                options := analysis.optionsPb
                perform := Perform.SAVE
                path := o.path
                part := o.part }
            some ({ e with message_id := mid,
                           analysis := some analysis,
                           status := EStatus.OPPING },
                  [Effect.sent ⟨mid, request, "AnalysisRequest"⟩])
      else
        let analysis := { analysis with status := AStatus.RUNNING }
        let request : AnalysisRequest :=
          { sessionId := analysis.sessionId
            instanceId := analysis.instanceId
            analysisId := analysis.id
            name := analysis.name
            ns := analysis.ns
            options := analysis.optionsPb
            changed := analysis.changes
            revision := analysis.revision
            clearState := analysis.clear_state
            perform := if run then Perform.RUN else Perform.INIT }
        some ({ e with message_id := mid,
                       analysis := some analysis,
                       status := if run then EStatus.RUNNING else EStatus.INITING },
              [Effect.sent ⟨mid, request, "AnalysisRequest"⟩])

/-- Result of `Engine._receive`: the updated engine, the final state of the
external work item the engine held (still present even when the engine
cleared its own reference to it), and the effects. -/
structure ReceiveOut where
  engine : Engine
  item : Option Analysis
  effects : List Effect
deriving DecidableEq

/-- `Engine._receive` (lines 220–244), run on the event loop for each
decoded incoming message.  `WAITING`: log only.  `OPPING`: back to waiting,
resolve or reject the pending operation's handle from the message, clear
the current item, notify slot-available.  Otherwise (`INITING`/`RUNNING`):
parse the response; on matching revision either finalize (non-in-progress
status) or apply partial results; on mismatch do nothing.  Attribute access
on a missing item or operation, or resolving an already-resolved handle,
raises (`none`). -/
def Engine._receive (e : Engine) (message : ComsMessage) : Option ReceiveOut :=
  if e.status = EStatus.WAITING then
    some ⟨e, e.analysis, []⟩
  else if e.status = EStatus.OPPING then
    match e.analysis with
    | none => none
    | some a =>
        match a.op with
        | none => none
        | some o =>
            let o' : Option Op :=
              if message.status = JStatus.ERROR then
                o.set_exception message.error.cause
              else
                o.set_result message
            match o' with
            | none => none
            | some o' =>
                some ⟨{ e with status := EStatus.WAITING, analysis := none },
                      some { a with op := some o' },
                      [Effect.slotAvailable]⟩
  else
    match e.analysis with
    | none => none
    | some a =>
        let results := message.payload
        if results.revision = a.revision then
          if message.status ≠ JStatus.IN_PROGRESS then
            let a := Analysis.set_results { a with status := results.status } results
            some ⟨{ e with status := EStatus.WAITING, analysis := none },
                  some a,
                  [Effect.slotAvailable]⟩
          else
            let a := a.set_results results
            some ⟨{ e with analysis := some a }, some a, []⟩
        else
          some ⟨e, some a, []⟩

/-- `'Exit code: {}'.format(returncode)`: Python renders `None` as
`"None"` and an integer exit code in decimal. -/
def formatReturncode : Option Int → String
  | none => "None"
  | some n => toString n

/-- `Engine._on_closing` (lines 154–167): close the socket; if mid-restart,
clear `stopping` and start again (same `conn_path`); otherwise mark the
engine permanently stopped and emit one engine-event carrying the exit
code.  Closing a missing socket, or reading the return code of a missing
process, raises (`none`). -/
def Engine._on_closing (e : Engine) (outcome : StartOutcome) : Option (Engine × List Effect) :=
  match e.socket with
  | none => none
  | some _ =>
      if e.restarting then
        let started := Engine.start { e with stopping := false } outcome
        some (started.1, Effect.socketClosed :: started.2)
      else
        match e.process with
        | none => none
        | some p =>
            some ({ e with stopped := true },
                  [Effect.socketClosed,
                   Effect.engineEvent "error" "Engine process terminated"
                     ("Exit code: " ++ formatReturncode p.returncode)])

/-- The `asyncio.Queue` used by `restart_engines`, reduced to the part the
code uses: its unfinished-task counter.  `put_nowait` registers one pending
unit; `task_done` marks one complete (raising, `none`, when there is no
pending unit); `join()` resumes its awaiter exactly when the counter is
zero. -/
structure RestartQueue where
  unfinished : Nat := 0
deriving DecidableEq

/-- `queue.put_nowait(engine)`: one more pending unit. -/
def RestartQueue.put_nowait (q : RestartQueue) : RestartQueue :=
  ⟨q.unfinished + 1⟩

/-- `queue.task_done()`: one fewer pending unit; raises `ValueError`
(`none`) when called more times than there were puts. -/
def RestartQueue.task_done (q : RestartQueue) : Option RestartQueue :=
  match q.unfinished with
  | 0 => none
  | n + 1 => some ⟨n⟩

/-- `await queue.join()` resumes exactly when every registered unit has
been marked done. -/
def RestartQueue.joinReady (q : RestartQueue) : Bool :=
  decide (q.unfinished = 0)

/-- `k` successive `task_done` calls. -/
def RestartQueue.taskDoneN : Nat → RestartQueue → Option RestartQueue
  | 0, q => some q
  | k + 1, q =>
      match q.task_done with
      | none => none
      | some q' => RestartQueue.taskDoneN k q'

/-- The `EngineManager`: its fixed engine list (slot order) and the restart
queue.  Connection-path construction and listener registration do not
affect the verified operations and are kept out of the state. -/
structure EngineManager where
  engines : List Engine
  restart_task : RestartQueue := {}
deriving DecidableEq

/-- The loop body of `EngineManager.stop`: stop each engine in slot order.
An exception from one engine's `stop` propagates out of the loop, so the
remaining engines are never reached (`none`). -/
def stopEngines : List Engine → Option (List Engine × List Effect)
  | [] => some ([], [])
  | e :: rest =>
      match e.stop with
      | none => none
      | some (e', effs) =>
          match stopEngines rest with
          | none => none
          | some (rest', effs') => some (e' :: rest', effs ++ effs')

/-- `EngineManager.stop` (lines 277–279). -/
def EngineManager.stop (m : EngineManager) : Option (EngineManager × List Effect) :=
  match stopEngines m.engines with
  | none => none
  | some (es, effs) => some ({ m with engines := es }, effs)

/-- The loop of `EngineManager.restart_engines` (lines 292–295): for each
engine in slot order, `engine.restart()` then register one pending unit
with `put_nowait`. -/
def restartRegister : List Engine → RestartQueue → Option (List Engine × RestartQueue × List Effect)
  | [], q => some ([], q, [])
  | e :: rest, q =>
      match e.restart with
      | none => none
      | some (e', effs) =>
          match restartRegister rest q.put_nowait with
          | none => none
          | some (rest', q', effs') => some (e' :: rest', q', effs ++ effs')

/-- `EngineManager.restart_engines` up to its `await`: restart every engine
and register one unit per engine; the coroutine then suspends on
`restart_task.join()`, which resumes only once `_notify_engine_restarted`
has marked every unit done. -/
def EngineManager.restart_engines_register (m : EngineManager) : Option (EngineManager × List Effect) :=
  match restartRegister m.engines m.restart_task with
  | none => none
  | some (es, q, effs) => some ({ m with engines := es, restart_task := q }, effs)

/-- `EngineManager._notify_engine_restarted` (lines 298–299), invoked once
by a restarted engine's new receiver thread (`Engine._run`, lines 133–135,
which then clears `restarting` so it reports at most once per restart). -/
def EngineManager._notify_engine_restarted (m : EngineManager) : Option EngineManager :=
  match m.restart_task.task_done with
  | none => none
  | some q => some { m with restart_task := q }

/-- A concrete pending operation used by witnesses. -/
def exOp : Op :=
  { path := "out.omv", part := "", waiting := true }

/-- A concrete work item used by witnesses. -/
def exAnalysis : Analysis :=
  { id := 5, name := "anova", ns := "jmv", instanceId := 2, sessionId := 1,
    status := AStatus.RUNNING, revision := 4, changes := ["dep"],
    clear_state := false, optionsPb := 9 }

/-- A concrete bound socket used by witnesses. -/
def exSocket : Socket :=
  { handle := 3, addr := "ipc://c-0" }

/-- A concrete busy engine (run request outstanding) used by witnesses. -/
def exEngineRunning : Engine :=
  { conn_path := "ipc://c-0", data_path := "/d", status := EStatus.RUNNING,
    analysis := some exAnalysis, process := some ⟨8, none⟩,
    socket := some exSocket, thread := true, message_id := 6 }

/-- C1: for an engine in INITING or RUNNING whose current item has revision
R, a response carrying a different revision leaves the engine's state, the
current-item assignment, and the item's status and results unchanged, and
fires no slot-available notification. -/
theorem receive_stale_revision_dropped (e : Engine) (a : Analysis) (message : ComsMessage)
    (hst : e.status = EStatus.INITING ∨ e.status = EStatus.RUNNING)
    (ha : e.analysis = some a)
    (hrev : message.payload.revision ≠ a.revision) :
    Engine._receive e message = some ⟨e, some a, []⟩ := by
  rcases hst with h | h <;>
    simp [Engine._receive, h, ha, hrev]

/-- Witness for C1 at a concrete engine: the current revision is 4 and the
response carries revision 3. -/
theorem receive_stale_revision_dropped_witness :
    Engine._receive exEngineRunning
        { id := 7, status := JStatus.COMPLETE, error := ⟨""⟩,
          payload := { revision := 3, status := AStatus.COMPLETE, results := 0 } } =
      some ⟨exEngineRunning, some exAnalysis, []⟩ :=
  receive_stale_revision_dropped exEngineRunning exAnalysis _ (Or.inr rfl) rfl (by decide)

/-- C2: for an engine in INITING or RUNNING with matching revision: an
IN_PROGRESS response applies the partial results without touching item
status, engine state or the current-item assignment and fires nothing; any
other status finalizes: item status is taken from the response, results are
applied, the engine returns to WAITING, the current item is cleared, and
slot-available fires exactly once. -/
theorem receive_matching_revision_applied (e : Engine) (a : Analysis) (message : ComsMessage)
    (hst : e.status = EStatus.INITING ∨ e.status = EStatus.RUNNING)
    (ha : e.analysis = some a)
    (hrev : message.payload.revision = a.revision) :
    (message.status = JStatus.IN_PROGRESS →
        Engine._receive e message =
          some ⟨{ e with analysis := some (a.set_results message.payload) },
                some (a.set_results message.payload), []⟩) ∧
    (message.status ≠ JStatus.IN_PROGRESS →
        Engine._receive e message =
          some ⟨{ e with status := EStatus.WAITING, analysis := none },
                some (Analysis.set_results { a with status := message.payload.status }
                        message.payload),
                [Effect.slotAvailable]⟩) := by
  constructor <;> intro hm <;> rcases hst with h | h <;>
    simp [Engine._receive, h, ha, hrev, hm]

/-- Witness for C2 at a concrete engine: an IN_PROGRESS response at
revision 4 applies partial results, and a COMPLETE response at revision 4
finalizes and frees the slot. -/
theorem receive_matching_revision_applied_witness :
    (Engine._receive exEngineRunning
        { id := 7, status := JStatus.IN_PROGRESS, error := ⟨""⟩,
          payload := { revision := 4, status := AStatus.RUNNING, results := 1 } } =
      some ⟨{ exEngineRunning with
                analysis := some (exAnalysis.set_results
                  { revision := 4, status := AStatus.RUNNING, results := 1 }) },
            some (exAnalysis.set_results
              { revision := 4, status := AStatus.RUNNING, results := 1 }), []⟩) ∧
    (Engine._receive exEngineRunning
        { id := 8, status := JStatus.COMPLETE, error := ⟨""⟩,
          payload := { revision := 4, status := AStatus.COMPLETE, results := 2 } } =
      some ⟨{ exEngineRunning with status := EStatus.WAITING, analysis := none },
            some (Analysis.set_results { exAnalysis with status := AStatus.COMPLETE }
              { revision := 4, status := AStatus.COMPLETE, results := 2 }),
            [Effect.slotAvailable]⟩) :=
  ⟨(receive_matching_revision_applied exEngineRunning exAnalysis _
      (Or.inr rfl) rfl rfl).1 rfl,
   (receive_matching_revision_applied exEngineRunning exAnalysis _
      (Or.inr rfl) rfl rfl).2 (by decide)⟩

/-- A concrete engine with an operation outstanding, used by witnesses. -/
def exEngineOpping : Engine :=
  { conn_path := "ipc://c-0", data_path := "/d", status := EStatus.OPPING,
    analysis := some { exAnalysis with status := AStatus.COMPLETE, op := some exOp },
    process := some ⟨8, none⟩, socket := some exSocket, thread := true,
    message_id := 6 }

/-- C5: for an engine in OPPING with a current item whose operation handle
is unresolved, any response returns the engine to WAITING, clears the
current item, and fires slot-available exactly once; an ERROR-status
response rejects the handle with the carried cause string, any other
response resolves it with the message payload. -/
theorem receive_opping_resolves (e : Engine) (a : Analysis) (o : Op) (message : ComsMessage)
    (hst : e.status = EStatus.OPPING)
    (ha : e.analysis = some a)
    (hop : a.op = some o)
    (hun : o.resolution = none) :
    (message.status = JStatus.ERROR →
        Engine._receive e message =
          some ⟨{ e with status := EStatus.WAITING, analysis := none },
                some { a with op := some { o with
                  resolution := some (OpResolution.rejected message.error.cause) } },
                [Effect.slotAvailable]⟩) ∧
    (message.status ≠ JStatus.ERROR →
        Engine._receive e message =
          some ⟨{ e with status := EStatus.WAITING, analysis := none },
                some { a with op := some { o with
                  resolution := some (OpResolution.resolved message) } },
                [Effect.slotAvailable]⟩) := by
  constructor <;> intro hm <;>
    simp [Engine._receive, hst, ha, hop, hm, Op.set_exception, Op.set_result, hun]

/-- Witness for C5 at a concrete engine: an ERROR response rejects the
handle with its cause, a COMPLETE response resolves it with the message. -/
theorem receive_opping_resolves_witness :
    (Engine._receive exEngineOpping
        { id := 7, status := JStatus.ERROR, error := ⟨"disk full"⟩,
          payload := { revision := 4, status := AStatus.ERROR, results := 0 } } =
      some ⟨{ exEngineOpping with status := EStatus.WAITING, analysis := none },
            some { exAnalysis with
                    status := AStatus.COMPLETE,
                    op := some { exOp with
                      resolution := some (OpResolution.rejected "disk full") } },
            [Effect.slotAvailable]⟩) ∧
    (Engine._receive exEngineOpping
        { id := 8, status := JStatus.COMPLETE, error := ⟨""⟩,
          payload := { revision := 4, status := AStatus.COMPLETE, results := 0 } } =
      some ⟨{ exEngineOpping with status := EStatus.WAITING, analysis := none },
            some { exAnalysis with
                    status := AStatus.COMPLETE,
                    op := some { exOp with
                      resolution := some (OpResolution.resolved
                        { id := 8, status := JStatus.COMPLETE, error := ⟨""⟩,
                          payload := { revision := 4, status := AStatus.COMPLETE,
                                       results := 0 } }) } },
            [Effect.slotAvailable]⟩) :=
  ⟨(receive_opping_resolves exEngineOpping _ exOp _ rfl rfl rfl rfl).1 rfl,
   (receive_opping_resolves exEngineOpping _ exOp _ rfl rfl rfl rfl).2 (by decide)⟩

/-- A concrete idle engine used by witnesses. -/
def exEngineWaiting : Engine :=
  { conn_path := "ipc://c-0", data_path := "/d", status := EStatus.WAITING,
    process := some ⟨8, none⟩, socket := some exSocket, thread := true }

/-- A concrete complete work item with a pending operation, used by
witnesses. -/
def exAnalysisOp : Analysis :=
  { exAnalysis with status := AStatus.COMPLETE, op := some exOp }

/-- C6: `send` always increments the message counter and captures the item
as the current item.  With a complete item carrying a pending operation it
goes to OPPING and transmits a SAVE request with the operation's path and
part, leaving the item's status untouched; otherwise it sets the item's
status to running, transmits a RUN (run = true) or INIT (run = false)
request carrying the options, changed list, revision and clear-state flag,
and goes to RUNNING or INITING respectively. -/
theorem send_dispatch (e : Engine) (a : Analysis) (run : Bool) (s : Socket)
    (hs : e.socket = some s) :
    (∀ o : Op, a.op = some o → o.waiting = true → a.status = AStatus.COMPLETE →
        Engine.send e a run =
          some ({ e with
                    message_id := e.message_id + 1,
                    analysis := some { a with op := some { o with waiting := false } },
                    status := EStatus.OPPING },
                [Effect.sent ⟨e.message_id + 1,
                    { sessionId := a.sessionId, instanceId := a.instanceId,
                      analysisId := a.id, name := a.name, ns := a.ns,
                      options := a.optionsPb, perform := Perform.SAVE,
                      path := o.path, part := o.part }, "AnalysisRequest"⟩])) ∧
    (¬ (a.status = AStatus.COMPLETE ∧ a.needs_op = true) →
        Engine.send e a run =
          some ({ e with
                    message_id := e.message_id + 1,
                    analysis := some { a with status := AStatus.RUNNING },
                    status := if run then EStatus.RUNNING else EStatus.INITING },
                [Effect.sent ⟨e.message_id + 1,
                    { sessionId := a.sessionId, instanceId := a.instanceId,
                      analysisId := a.id, name := a.name, ns := a.ns,
                      options := a.optionsPb, changed := a.changes,
                      revision := a.revision, clearState := a.clear_state,
                      perform := if run then Perform.RUN else Perform.INIT },
                    "AnalysisRequest"⟩])) := by
  constructor
  · intro o hop hw hc
    simp [Engine.send, hs, hc, hop, Analysis.needs_op, hw]
  · intro hno
    simp only [Engine.send, hs]
    rw [if_neg (by simpa using hno)]

/-- Witness for C6 at concrete inputs: dispatching a complete item with a
pending operation sends SAVE and goes to OPPING; dispatching a plain item
with run = true sends RUN and goes to RUNNING. -/
theorem send_dispatch_witness :
    (Engine.send exEngineWaiting exAnalysisOp true =
      some ({ exEngineWaiting with
                message_id := 1,
                analysis := some { exAnalysisOp with
                                    op := some { exOp with waiting := false } },
                status := EStatus.OPPING },
            [Effect.sent ⟨1,
                { sessionId := 1, instanceId := 2, analysisId := 5,
                  name := "anova", ns := "jmv", options := 9,
                  perform := Perform.SAVE, path := "out.omv", part := "" },
                "AnalysisRequest"⟩])) ∧
    (Engine.send exEngineWaiting exAnalysis true =
      some ({ exEngineWaiting with
                message_id := 1,
                analysis := some { exAnalysis with status := AStatus.RUNNING },
                status := EStatus.RUNNING },
            [Effect.sent ⟨1,
                { sessionId := 1, instanceId := 2, analysisId := 5,
                  name := "anova", ns := "jmv", options := 9,
                  changed := ["dep"], revision := 4, clearState := false,
                  perform := Perform.RUN },
                "AnalysisRequest"⟩])) :=
  ⟨(send_dispatch exEngineWaiting exAnalysisOp true exSocket rfl).1 exOp rfl rfl rfl,
   (send_dispatch exEngineWaiting exAnalysis true exSocket rfl).2 (by decide)⟩

/-- C10: `send` itself enforces no at-most-one-in-flight precondition: on
any engine owning a channel — whatever its state, `is_waiting` or not, an
item in flight or not — `send` is not rejected and does not raise; it
increments the message counter and unconditionally installs the new item
as the current item. -/
theorem send_unguarded (e : Engine) (a : Analysis) (run : Bool) (s : Socket)
    (hs : e.socket = some s) :
    ∃ e' effs, Engine.send e a run = some (e', effs) ∧
      e'.message_id = e.message_id + 1 ∧
      ∃ a', e'.analysis = some a' ∧ a'.id = a.id ∧ a'.revision = a.revision := by
  by_cases h : a.status = AStatus.COMPLETE ∧ a.needs_op = true
  · obtain ⟨hc, hn⟩ := h
    match ho : a.op with
    | none => simp [Analysis.needs_op, ho] at hn
    | some o =>
        have hw : o.waiting = true := by simpa [Analysis.needs_op, ho] using hn
        simp [Engine.send, hs, hc, Analysis.needs_op, ho, hw]
  · simp only [Engine.send, hs]
    rw [if_neg (by simpa using h)]
    simp

/-- Witness for C10: an engine already RUNNING with an item in flight (not
`is_waiting`) still accepts a second dispatch. -/
theorem send_unguarded_witness :
    exEngineRunning.is_waiting = false ∧
    ∃ e' effs, Engine.send exEngineRunning { exAnalysis with id := 6 } true = some (e', effs) ∧
      e'.message_id = exEngineRunning.message_id + 1 ∧
      ∃ a', e'.analysis = some a' ∧ a'.id = 6 ∧ a'.revision = 4 :=
  ⟨by decide,
   send_unguarded exEngineRunning { exAnalysis with id := 6 } true exSocket rfl⟩

/-- C7: `stop` on an engine not yet stopped marks `stopping`, increments
the message counter and transmits a restart-signal envelope whose request
has every field at its default except `restartEngines`; on an already
stopped engine it is a no-op: no state change, no counter increment, no
transmission. -/
theorem stop_spec (e : Engine) (s : Socket) (hs : e.socket = some s) :
    (e.stopped = false →
        Engine.stop e =
          some ({ e with stopping := true, message_id := e.message_id + 1 },
                [Effect.sent ⟨e.message_id + 1, { restartEngines := true },
                              "AnalysisRequest"⟩])) ∧
    (e.stopped = true → Engine.stop e = some (e, [])) := by
  constructor <;> intro h <;> simp [Engine.stop, h, hs]

/-- Witness for C7: a live engine sends the poison pill; a stopped engine
does nothing. -/
theorem stop_spec_witness :
    (Engine.stop exEngineWaiting =
      some ({ exEngineWaiting with stopping := true, message_id := 1 },
            [Effect.sent ⟨1, { restartEngines := true }, "AnalysisRequest"⟩])) ∧
    (Engine.stop { exEngineWaiting with stopped := true } =
      some ({ exEngineWaiting with stopped := true }, [])) :=
  ⟨(stop_spec exEngineWaiting exSocket rfl).1 rfl,
   (stop_spec { exEngineWaiting with stopped := true } exSocket rfl).2 rfl⟩

/-- C4: `_on_closing` closes the channel, then: with `restarting` set it
clears `stopping` and starts again — new process, new socket bound to the
engine's same connection path, no engine-event, `stopped` untouched;
otherwise it marks the engine permanently stopped and emits exactly one
engine-event whose cause carries the process exit code. -/
theorem on_closing_spec (e : Engine) (s : Socket) (p : Process) (rc : Int)
    (hs : e.socket = some s) (hp : e.process = some p) (hrc : p.returncode = some rc) :
    (e.restarting = true → ∀ np ns0 : Nat,
        Engine._on_closing e (StartOutcome.ok np ns0) =
          some ({ e with
                    stopping := false,
                    process := some ⟨np, none⟩,
                    socket := some ⟨ns0, e.conn_path⟩,
                    thread := true },
                [Effect.socketClosed])) ∧
    (e.restarting = false → ∀ outcome : StartOutcome,
        Engine._on_closing e outcome =
          some ({ e with stopped := true },
                [Effect.socketClosed,
                 Effect.engineEvent "error" "Engine process terminated"
                   ("Exit code: " ++ toString rc)])) := by
  constructor
  · intro h np ns0
    simp [Engine._on_closing, hs, h, Engine.start]
  · intro h outcome
    simp [Engine._on_closing, hs, h, hp, hrc, formatReturncode]

/-- A concrete engine whose process has exited with code 1, used by the C4
witness (one copy mid-restart, one not). -/
def exEngineDead : Engine :=
  { conn_path := "ipc://c-0", data_path := "/d", status := EStatus.WAITING,
    process := some ⟨8, some 1⟩, socket := some exSocket, thread := true,
    message_id := 7, stopping := true }

/-- Witness for C4: the mid-restart engine is started again on the same
path; the non-restarting one is marked stopped with one fault event. -/
theorem on_closing_spec_witness :
    (Engine._on_closing { exEngineDead with restarting := true } (StartOutcome.ok 9 4) =
      some ({ exEngineDead with
                restarting := true,
                stopping := false,
                process := some ⟨9, none⟩,
                socket := some ⟨4, "ipc://c-0"⟩,
                thread := true },
            [Effect.socketClosed])) ∧
    (Engine._on_closing exEngineDead (StartOutcome.ok 9 4) =
      some ({ exEngineDead with stopped := true },
            [Effect.socketClosed,
             Effect.engineEvent "error" "Engine process terminated" "Exit code: 1"])) :=
  ⟨(on_closing_spec { exEngineDead with restarting := true } exSocket ⟨8, some 1⟩ 1
      rfl rfl rfl).1 rfl 9 4,
   (on_closing_spec exEngineDead exSocket ⟨8, some 1⟩ 1 rfl rfl rfl).2 rfl
      (StartOutcome.ok 9 4)⟩

/-- C8 counterexample: when the socket creation/binding fails after the
process was spawned, `start` leaves the engine WITH a process — the claim
that a failed `start` leaves the engine "without a process and channel"
fails at this input. -/
theorem start_failure_counterexample :
    ((Engine.start { conn_path := "ipc://c-0", data_path := "/d" }
        (StartOutcome.socketFail 7 "bind failed")).1).process ≠ none := by
  simp [Engine.start]

/-- C8 amended: a failure while creating the worker process, the channel,
or the receiver thread never propagates out of `start`; exactly one
engine-event of type error carrying the failure cause is emitted and
nothing is retried.  A process-spawn (Popen) failure leaves the engine
without process and channel; a channel failure leaves the already-created
process assigned; a receiver-thread failure leaves both the process and
the bound channel assigned. -/
theorem start_failure_no_raise (e : Engine) :
    (∀ c, Engine.start e (StartOutcome.popenFail c) =
        (e, [Effect.engineEvent "error" "Engine process could not be started" c])) ∧
    (∀ p c, Engine.start e (StartOutcome.socketFail p c) =
        ({ e with process := some ⟨p, none⟩ },
         [Effect.engineEvent "error" "Engine process could not be started" c])) ∧
    (∀ p s c, Engine.start e (StartOutcome.threadFail p s c) =
        ({ e with process := some ⟨p, none⟩, socket := some ⟨s, e.conn_path⟩ },
         [Effect.engineEvent "error" "Engine process could not be started" c])) :=
  ⟨fun _ => rfl, fun _ _ => rfl, fun _ _ _ => rfl⟩

/-- A pool of three engines in which slot 0's spawn failed (caught by
`start`: no process, no channel, `stopped` still false) while slots 1 and 2
started normally. -/
def spawnFailedPool : EngineManager :=
  { engines :=
      [ (Engine.start { conn_path := "ipc://c-0", data_path := "/d" }
            (StartOutcome.popenFail "No such file or directory")).1,
        (Engine.start { conn_path := "ipc://c-1", data_path := "/d" }
            (StartOutcome.ok 11 21)).1,
        (Engine.start { conn_path := "ipc://c-2", data_path := "/d" }
            (StartOutcome.ok 12 22)).1 ] }

/-- C9: evaluating the code at the failing input.  One engine whose spawn
failed has no channel and is not `stopped`, so its `stop` sends on `None`
and raises; the exception propagates out of the pool's per-engine loop, so
`pool.stop()` raises and the remaining engines are never stopped — contrary
to the propagation policy that per-engine failures never halt the pool. -/
theorem pool_stop_crashes_on_spawn_failed_engine :
    EngineManager.stop spawnFailedPool = none := rfl

/-- Helper: `restart` succeeds on any engine that is already stopped (the
poison pill becomes a no-op) or still owns its channel. -/
theorem restart_succeeds (e : Engine)
    (h : e.stopped = true ∨ e.socket.isSome = true) :
    ∃ e' effs, Engine.restart e = some (e', effs) := by
  rcases h with hstop | hsock
  · simp [Engine.restart, Engine.stop, hstop]
  · match hs : e.socket with
    | none => simp [hs] at hsock
    | some s =>
        by_cases hstop : e.stopped = true <;>
          simp [Engine.restart, Engine.stop, hstop, hs]

/-- Helper: the registration loop restarts every engine and puts exactly
one pending unit on the queue per engine. -/
theorem restartRegister_count : ∀ (l : List Engine) (q : RestartQueue),
    (∀ e ∈ l, e.stopped = true ∨ e.socket.isSome = true) →
    ∃ l' effs, restartRegister l q = some (l', ⟨q.unfinished + l.length⟩, effs)
  | [], q, _ => ⟨[], [], by simp [restartRegister]⟩
  | e :: rest, q, h => by
      obtain ⟨e', effs0, hre⟩ := restart_succeeds e (h e (List.mem_cons_self e rest))
      obtain ⟨l', effs, hr⟩ :=
        restartRegister_count rest q.put_nowait
          (fun x hx => h x (List.mem_cons_of_mem e hx))
      refine ⟨e' :: l', effs0 ++ effs, ?_⟩
      simp only [RestartQueue.put_nowait] at hr
      simp only [restartRegister, hre, RestartQueue.put_nowait, hr, List.length_cons]
      have heq : q.unfinished + 1 + rest.length = q.unfinished + (rest.length + 1) := by omega
      rw [heq]

/-- Helper: starting from `n` pending units, `k ≤ n` completions leave
`n - k` pending units and never raise. -/
theorem taskDoneN_spec : ∀ (k n : Nat), k ≤ n →
    RestartQueue.taskDoneN k ⟨n⟩ = some ⟨n - k⟩
  | 0, n, _ => by simp [RestartQueue.taskDoneN]
  | k + 1, 0, hk => by omega
  | k + 1, n + 1, hk => by
      simp only [RestartQueue.taskDoneN, RestartQueue.task_done]
      rw [taskDoneN_spec k n (by omega)]
      simp [Nat.succ_sub_succ]

/-- C3: `restart_engines` registers exactly one pending completion unit per
engine of the pool (starting from an empty queue, exactly N units for N
engines) and suspends on the queue's join, which — whatever the order of
the indistinguishable completion reports — resumes after exactly N
completions and not before: with `k < N` completions marked, join is not
ready; with N, it is. -/
theorem restart_engines_barrier (m : EngineManager)
    (hq : m.restart_task.unfinished = 0)
    (h : ∀ e ∈ m.engines, e.stopped = true ∨ e.socket.isSome = true) :
    ∃ l' effs,
      EngineManager.restart_engines_register m =
        some ({ m with engines := l', restart_task := ⟨m.engines.length⟩ }, effs) ∧
      ∀ k ≤ m.engines.length,
        RestartQueue.taskDoneN k ⟨m.engines.length⟩ =
            some ⟨m.engines.length - k⟩ ∧
          (RestartQueue.joinReady ⟨m.engines.length - k⟩ = true ↔
            k = m.engines.length) := by
  obtain ⟨l', effs, hr⟩ := restartRegister_count m.engines m.restart_task h
  rw [hq] at hr
  refine ⟨l', effs, ?_, ?_⟩
  · simp [EngineManager.restart_engines_register, hr]
  · intro k hk
    refine ⟨taskDoneN_spec k m.engines.length hk, ?_⟩
    simp only [RestartQueue.joinReady, decide_eq_true_eq]
    omega

/-- A concrete two-engine pool used by the C3 witness. -/
def exPool : EngineManager :=
  { engines :=
      [ exEngineWaiting,
        { exEngineWaiting with conn_path := "ipc://c-1", socket := some ⟨4, "ipc://c-1"⟩ } ] }

/-- Witness for C3: over the concrete two-engine pool, registration leaves
two pending units; one completion does not release the barrier, two do. -/
theorem restart_engines_barrier_witness :
    ∃ l' effs,
      EngineManager.restart_engines_register exPool =
        some ({ exPool with engines := l', restart_task := ⟨exPool.engines.length⟩ }, effs) ∧
      ∀ k ≤ exPool.engines.length,
        RestartQueue.taskDoneN k ⟨exPool.engines.length⟩ =
            some ⟨exPool.engines.length - k⟩ ∧
          (RestartQueue.joinReady ⟨exPool.engines.length - k⟩ = true ↔
            k = exPool.engines.length) :=
  restart_engines_barrier exPool rfl (by decide)
